import Mathlib

/-!
Shallow embedding of the "Learning RAG Demo" repository
(`src/config.py`, `src/services/embedding_service.py`,
`src/services/document_store.py`, `src/workflows/rag_workflow.py`,
`src/api/routes.py`) together with proofs of the spec claims.

Modelling conventions:
* Python's global `random` module is an abstract state machine: a state type
  `R`, a `seed` operation `Nat → R` and a `random` draw `R → V × R`, where `V`
  abstracts the numeric value type of one draw.  `abs(hash(text))` is an
  abstract function `String → Nat`.  These are bundled in `PyModel`.
* The Qdrant client is external I/O.  Each call that can raise is given an
  explicit outcome parameter (a `Bool` for `upsert`, an
  `Option (List String)` for `search` where `none` models a raised
  exception and `some hits` the ranked texts returned by the backend).
* Python `try/except` that returns a fallback value is modelled by branching
  on that outcome parameter; raised `HTTPException`s become `Except` errors.
* Python `s[:n]` on strings is `String.take`, `len` is `String.length`,
  list slicing `xs[:n]` is `List.take`, and `x or d` on an optional int is
  `pyOrInt`.
-/

namespace RagDemo

/-- Abstract model of the pieces of the Python runtime the code uses:
the global `random` generator (`random.seed`, `random.random`) and the
built-in `abs(hash(·))`. `V` is the type of one drawn value, `R` the type of
the generator's hidden state. -/
structure PyModel (V R : Type) where
  pySeed : Nat → R
  pyRandom : R → V × R
  pyHashAbs : String → Nat

/-- Python `limit or default` on an optional int argument: `None` and `0` are
falsy and select the default. From `document_store.py` line
`limit = limit or Config.SEARCH_LIMIT`. -/
def pyOrInt (limit : Option Int) (d : Int) : Int :=
  match limit with
  | none => d
  | some n => if n = 0 then d else n

/-- Model of `src/config.py` `Config`: the three numeric settings the core reads.
`EMBEDDING_DIMENSION` and `SEARCH_LIMIT` come from `int(os.getenv(...))` so
they are arbitrary integers before validation; `ANSWER_PREVIEW_LENGTH` is the
literal `100` in the source but is kept as a field so claims can quantify
over it. -/
structure Config where
  EMBEDDING_DIMENSION : Int
  SEARCH_LIMIT : Int
  ANSWER_PREVIEW_LENGTH : Int

/-- Model of `Config.validate`: raises `ValueError` (modelled as `.error msg`) when a
setting is non-positive, otherwise returns `True`. -/
def Config.validate (cfg : Config) : Except String Bool :=
  if cfg.EMBEDDING_DIMENSION ≤ 0 then
    .error "EMBEDDING_DIMENSION must be positive"
  else if cfg.SEARCH_LIMIT ≤ 0 then
    .error "SEARCH_LIMIT must be positive"
  else
    .ok true

/-- Model of `src/services/embedding_service.py` `EmbeddingService`: carries the vector
dimension (`dimension or Config.EMBEDDING_DIMENSION`, resolved at
construction). -/
structure EmbeddingService where
  dimension : Int

/-- Model of `[random.random() for _ in range(n)]`: draw `n` values from the global
generator, threading its state. -/
def drawRandoms {V R : Type} (M : PyModel V R) : Nat → R → List V × R
  | 0, st => ([], st)
  | n + 1, st =>
      let (v, st1) := M.pyRandom st
      let (vs, st2) := drawRandoms M n st1
      (v :: vs, st2)

/-- Model of `EmbeddingService.embed`:
`random.seed(abs(hash(text)) % 10000)` followed by
`[random.random() for _ in range(self.dimension)]`.  Takes and returns the
global generator state.  `range` of a non-positive int is empty, hence
`.toNat`. -/
def EmbeddingService.embed {V R : Type} (svc : EmbeddingService) (M : PyModel V R)
    (text : String) (st : R) : List V × R :=
  let st0 := M.pySeed (M.pyHashAbs text % 10000)
  drawRandoms M svc.dimension.toNat st0

/-- Model of `EmbeddingService.embed_batch`: `[self.embed(text) for text in texts]`,
threading the global generator state left to right. -/
def EmbeddingService.embed_batch {V R : Type} (svc : EmbeddingService) (M : PyModel V R)
    (texts : List String) (st : R) : List (List V) × R :=
  match texts with
  | [] => ([], st)
  | t :: ts =>
      let (v, st1) := svc.embed M t st
      let (vs, st2) := svc.embed_batch M ts st1
      (v :: vs, st2)

/-- One stored document: the `(id, text, embedding)` record kept by both
backends (`PointStruct` payload on the Qdrant side, the dict appended to
`memory_store` on the fallback side). -/
structure StoredDoc (V : Type) where
  id : Int
  text : String
  embedding : List V

/-- Qdrant `upsert` of a single point: insert-or-replace by id. -/
def qdrantUpsert {V : Type} (points : List (StoredDoc V)) (p : StoredDoc V) :
    List (StoredDoc V) :=
  if points.any (fun q => q.id = p.id) then
    points.map (fun q => if q.id = p.id then p else q)
  else
    points ++ [p]

/-- Model of `src/services/document_store.py` `DocumentStore` state: the backend-mode
flag, the in-memory fallback list, and (abstractly) the points held by the
Qdrant collection when the primary backend is in use. -/
structure DocumentStore (V : Type) where
  using_qdrant : Bool
  memory_store : List (StoredDoc V)
  qdrant_points : List (StoredDoc V)

/-- Model of `DocumentStore.__init__` + `_initialize_qdrant`: the constructor sets
`using_qdrant = False` and `memory_store = []`, then the connectivity probe
either succeeds (collection recreated empty, `using_qdrant = True`) or raises
(caught: `using_qdrant = False`).  `connect_ok` is the probe's outcome. -/
def DocumentStore.init (V : Type) (connect_ok : Bool) : DocumentStore V :=
  { using_qdrant := connect_ok, memory_store := [], qdrant_points := [] }

/-- Model of `DocumentStore.add_document`: in Qdrant mode upserts a point (the call may
raise, outcome `upsert_ok`; the except-branch returns `False` with storage
unchanged); in fallback mode appends to `memory_store` (cannot raise).
Returns the success flag and the updated store. -/
def DocumentStore.add_document {V : Type} (store : DocumentStore V)
    (upsert_ok : Bool) (doc_id : Int) (text : String) (embedding : List V) :
    Bool × DocumentStore V :=
  if store.using_qdrant then
    if upsert_ok then
      (true, { store with
                 qdrant_points := qdrantUpsert store.qdrant_points
                   ⟨doc_id, text, embedding⟩ })
    else
      (false, store)
  else
    (true, { store with
               memory_store := store.memory_store ++ [⟨doc_id, text, embedding⟩] })

/-- Model of `DocumentStore.search`: resolves `limit = limit or Config.SEARCH_LIMIT`;
in Qdrant mode returns the texts of the backend's hits (`qdrant_result`;
`none` models the call raising, caught to return `[]`); in fallback mode
returns the texts of `self.memory_store[:limit]` with no similarity
computation (list slicing cannot raise). -/
def DocumentStore.search {V : Type} (cfg : Config) (store : DocumentStore V)
    (qdrant_result : Option (List String)) (query_embedding : List V)
    (limit : Option Int) : List String :=
  let lim := pyOrInt limit cfg.SEARCH_LIMIT
  if store.using_qdrant then
    match qdrant_result with
    | some hits => hits.take lim.toNat
    | none => []
  else
    (store.memory_store.take lim.toNat).map (fun d => d.text)

/-- The record returned by `DocumentStore.get_stats` (the fields the core
reads: the mode flag and `in_memory_count = len(self.memory_store)`). -/
structure StoreStats where
  using_qdrant : Bool
  in_memory_count : Nat

/-- Model of `DocumentStore.get_stats`. -/
def DocumentStore.get_stats {V : Type} (store : DocumentStore V) : StoreStats :=
  { using_qdrant := store.using_qdrant
    in_memory_count := store.memory_store.length }

/-- The LangGraph state dict threaded through the two stages.  `run` seeds it
with only `question`; `context` and `answer` are absent (`none`) until the
corresponding stage writes them (`state.get(key, default)` is `Option.getD`). -/
structure PipelineState where
  question : Option String
  context : Option (List String)
  answer : Option String

/-- Model of `src/workflows/rag_workflow.py` `RagWorkflow._retrieve_step`: embeds
`state.get("question", "")`, searches with `limit=Config.SEARCH_LIMIT`, and
writes the results into `state["context"]`.  Threads the global random state;
`qdrant_result` is the backend outcome of this step's search call. -/
def RagWorkflow.retrieve_step {V R : Type} (cfg : Config) (M : PyModel V R)
    (svc : EmbeddingService) (store : DocumentStore V)
    (qdrant_result : Option (List String)) (state : PipelineState) (rst : R) :
    PipelineState × R :=
  let question := state.question.getD ""
  let (query_embedding, rst1) := svc.embed M question rst
  let results := store.search cfg qdrant_result query_embedding (some cfg.SEARCH_LIMIT)
  ({ state with context := some results }, rst1)

/-- Model of `RagWorkflow._answer_step`: reads `state.get("context", [])`; if non-empty
takes the first entry, truncates it to `Config.ANSWER_PREVIEW_LENGTH`
(appending `"..."` when strictly longer), and wraps it in
`"I found this: '...'"`; otherwise the fixed fallback message.  Writes
`state["answer"]`. -/
def RagWorkflow.answer_step (cfg : Config) (state : PipelineState) : PipelineState :=
  let context := state.context.getD []
  let answer :=
    match context with
    | [] => "Sorry, I don't know."
    | first_context :: _ =>
        let preview_length := cfg.ANSWER_PREVIEW_LENGTH.toNat
        let preview := first_context.take preview_length
        let preview :=
          if first_context.length > preview_length then preview ++ "..." else preview
        "I found this: '" ++ preview ++ "'"
  { state with answer := some answer }

/-- Model of `RagWorkflow.run`: builds the fresh state `{"question": question}` and
drives it through `retrieve` then `answer` (the compiled graph's only path). -/
def RagWorkflow.run {V R : Type} (cfg : Config) (M : PyModel V R)
    (svc : EmbeddingService) (store : DocumentStore V)
    (qdrant_result : Option (List String)) (question : String) (rst : R) :
    PipelineState × R :=
  let state0 : PipelineState := { question := some question, context := none, answer := none }
  let (state1, rst1) := RagWorkflow.retrieve_step cfg M svc store qdrant_result state0 rst
  (RagWorkflow.answer_step cfg state1, rst1)

/-- Model of `RagWorkflow.add_document`: a `None` id is replaced by the store's
`in_memory_count`; the text is embedded and delegated to
`DocumentStore.add_document`, whose boolean result is returned unchanged.
Returns `(success, updated store, updated random state)`. -/
def RagWorkflow.add_document {V R : Type} (M : PyModel V R)
    (svc : EmbeddingService) (store : DocumentStore V) (upsert_ok : Bool)
    (text : String) (doc_id : Option Int) (rst : R) :
    Bool × DocumentStore V × R :=
  let id : Int :=
    match doc_id with
    | none => (store.get_stats.in_memory_count : Int)
    | some i => i
  let (embedding, rst1) := svc.embed M text rst
  let (ok, store1) := store.add_document upsert_ok id text embedding
  (ok, store1, rst1)

/-- Body of `src/api/routes.py` `DocumentResponse`. -/
structure DocumentResponse where
  id : Int
  status : String
  deriving DecidableEq

/-- Body of `QuestionResponse` minus `latency_sec` (wall-clock time is outside
the model). -/
structure QuestionResponse where
  question : String
  answer : String
  context_used : List String

/-- Model of `RagAPI.add_document`: derives the new id from the store's
`in_memory_count`, delegates to `RagWorkflow.add_document`, and either returns
`{id, status: "added"}` or raises `HTTPException(500, ...)` (modelled as
`.error (500, detail)`) when the workflow reports failure. -/
def RagAPI.add_document {V R : Type} (M : PyModel V R) (svc : EmbeddingService)
    (store : DocumentStore V) (upsert_ok : Bool) (text : String) (rst : R) :
    Except (Nat × String) DocumentResponse × DocumentStore V × R :=
  let doc_id : Int := (store.get_stats.in_memory_count : Int)
  let (success, store1, rst1) :=
    RagWorkflow.add_document M svc store upsert_ok text (some doc_id) rst
  if success then
    (.ok ⟨doc_id, "added"⟩, store1, rst1)
  else
    (.error (500, "Failed to add document"), store1, rst1)

/-- Model of `RagAPI.ask_question`: runs the workflow and packages
`result["answer"]` / `result.get("context", [])` (the workflow always sets
`answer`, so the `getD ""` default is never taken on reachable states). -/
def RagAPI.ask_question {V R : Type} (cfg : Config) (M : PyModel V R)
    (svc : EmbeddingService) (store : DocumentStore V)
    (qdrant_result : Option (List String)) (question : String) (rst : R) :
    QuestionResponse × R :=
  let (result, rst1) := RagWorkflow.run cfg M svc store qdrant_result question rst
  ({ question := question
     answer := result.answer.getD ""
     context_used := result.context.getD [] }, rst1)

/-- One call to the store: either `add_document` (with the backend outcome of
its possible upsert) or `search` (with the backend outcome of its possible
query).  Used to state lifetime invariants over arbitrary call sequences. -/
inductive StoreOp (V : Type) where
  | insert (upsert_ok : Bool) (doc_id : Int) (text : String) (embedding : List V)
  | query (qdrant_result : Option (List String)) (query_embedding : List V)
      (limit : Option Int)

/-- The store state after one call (`search` never mutates the store). -/
def DocumentStore.applyOp {V : Type} (store : DocumentStore V) :
    StoreOp V → DocumentStore V
  | .insert upsert_ok doc_id text embedding =>
      (store.add_document upsert_ok doc_id text embedding).2
  | .query _ _ _ => store

/-- The store state after a sequence of calls. -/
def DocumentStore.applyOps {V : Type} (store : DocumentStore V)
    (ops : List (StoreOp V)) : DocumentStore V :=
  ops.foldl DocumentStore.applyOp store

/-- A sequence of successful `POST /add` requests: each one goes through
`RagAPI.add_document` with a succeeding backend, threading store and random
state and collecting the responses. -/
def RagAPI.addAll {V R : Type} (M : PyModel V R) (svc : EmbeddingService)
    (store : DocumentStore V) (rst : R) :
    List String → List (Except (Nat × String) DocumentResponse) × DocumentStore V × R
  | [] => ([], store, rst)
  | t :: ts =>
      let (resp, store1, rst1) := RagAPI.add_document M svc store true t rst
      let (resps, store2, rst2) := RagAPI.addAll M svc store1 rst1 ts
      (resp :: resps, store2, rst2)

/-- A concrete instantiation of the runtime model used to evaluate the
definitions on closed inputs: generator state is a counter, each draw returns
the counter, and the text hash is the UTF-8 length.  (The claims proved at
this instantiation never depend on the drawn values.) -/
def natModel : PyModel Nat Nat :=
  { pySeed := fun n => n
    pyRandom := fun s => (s, s + 1)
    pyHashAbs := fun t => t.utf8ByteSize }

/-- Full text of the document used by the spec's end-to-end scenario. -/
def langGraphText : String := "LangGraph is a library for building stateful workflows."

/-- Drawing `n` values from the generator yields a list of length `n`. -/
theorem drawRandoms_length {V R : Type} (M : PyModel V R) :
    ∀ (n : Nat) (st : R), (drawRandoms M n st).1.length = n
  | 0, _ => rfl
  | n + 1, st => by
      simp only [drawRandoms, List.length_cons]
      rw [drawRandoms_length M n]

/-- Every document of either backend has a vector of length `D`. -/
def vectorsHaveDim {V : Type} (store : DocumentStore V) (D : Nat) : Prop :=
  ∀ d ∈ store.memory_store ++ store.qdrant_points, d.embedding.length = D

/-- A member of an upserted point list is an old point or the new point. -/
theorem qdrantUpsert_mem {V : Type} {points : List (StoredDoc V)}
    {p q : StoredDoc V} (hq : q ∈ qdrantUpsert points p) : q ∈ points ∨ q = p := by
  unfold qdrantUpsert at hq
  split at hq
  · obtain ⟨r, hr, hrq⟩ := List.mem_map.mp hq
    by_cases h : r.id = p.id
    · right; simp [h] at hrq; exact hrq.symm
    · left; simp [h] at hrq; exact hrq ▸ hr
  · rcases List.mem_append.mp hq with h | h
    · exact Or.inl h
    · right; simpa using h

/-- C5: for every text `t`, two calls to `embed(t)` within a single process
return identical vectors — the second call, starting from the global
generator state the first call left behind, yields the same vector, because
`embed` reseeds the generator from a stable hash of `t` on every call. -/
theorem C5_embed_deterministic {V R : Type} (M : PyModel V R)
    (svc : EmbeddingService) (text : String) (rst : R) :
    (svc.embed M text (svc.embed M text rst).2).1 = (svc.embed M text rst).1 := rfl

/-- C6: with a positive configured dimension, `embed` returns a vector of
length exactly `D`; consequently a store in which every document's vector has
length `D` still has that property after `RagWorkflow.add_document`, in
either backend. -/
theorem C6_dimension_invariant {V R : Type} (M : PyModel V R)
    (svc : EmbeddingService) (h : 0 < svc.dimension) (text : String) (rst : R)
    (store : DocumentStore V) (upsert_ok : Bool) (doc_id : Option Int) :
    ((svc.embed M text rst).1.length : Int) = svc.dimension ∧
    (vectorsHaveDim store svc.dimension.toNat →
      vectorsHaveDim
        (RagWorkflow.add_document M svc store upsert_ok text doc_id rst).2.1
        svc.dimension.toNat) := by
  have hlen : (svc.embed M text rst).1.length = svc.dimension.toNat :=
    drawRandoms_length M svc.dimension.toNat _
  constructor
  · rw [hlen]; exact Int.toNat_of_nonneg h.le
  · intro hstore d hd
    unfold RagWorkflow.add_document DocumentStore.add_document at hd
    simp only at hd
    split at hd
    · split at hd
      · rcases List.mem_append.mp hd with hmem | hmem
        · exact hstore d (List.mem_append_left _ hmem)
        · rcases qdrantUpsert_mem hmem with hold | hnew
          · exact hstore d (List.mem_append_right _ hold)
          · subst hnew; exact hlen
      · exact hstore d hd
    · rcases List.mem_append.mp hd with hmem | hmem
      · rcases List.mem_append.mp hmem with hmem' | hmem'
        · exact hstore d (List.mem_append_left _ hmem')
        · have hde := List.mem_singleton.mp hmem'
          rw [hde]; exact hlen
      · exact hstore d (List.mem_append_right _ hmem)

/-- Closed witness for C6 at a concrete dimension, store and inputs. -/
theorem C6_dimension_invariant_witness :
    (((EmbeddingService.mk 8).embed natModel "t" 0).1.length : Int) = 8 ∧
    (vectorsHaveDim (DocumentStore.init Nat false) (8 : Int).toNat →
      vectorsHaveDim
        (RagWorkflow.add_document natModel ⟨8⟩ (DocumentStore.init Nat false)
          true "t" none 0).2.1 (8 : Int).toNat) :=
  C6_dimension_invariant natModel ⟨8⟩ (by decide) "t" 0
    (DocumentStore.init Nat false) true none

/-- C3: in fallback mode, with a positive limit, `search` returns the texts of
the first `min limit n` stored documents in insertion order, its result does
not depend on the query vector (nor on any backend outcome), and its length
is `min limit n` for `n` the number of stored documents. -/
theorem C3_fallback_search_ignores_query {V : Type} (cfg : Config)
    (store : DocumentStore V) (qdrant_result qdrant_result' : Option (List String))
    (q q' : List V) (limit : Int)
    (hmode : store.using_qdrant = false) (hpos : 0 < limit) :
    store.search cfg qdrant_result q (some limit) =
      (store.memory_store.take limit.toNat).map (fun d => d.text) ∧
    store.search cfg qdrant_result q (some limit) =
      store.search cfg qdrant_result' q' (some limit) ∧
    (store.search cfg qdrant_result q (some limit)).length =
      min limit.toNat store.memory_store.length := by
  have hne : limit ≠ 0 := hpos.ne'
  unfold DocumentStore.search pyOrInt
  simp [hmode, hne]

/-- Closed witness for C3 on a two-document fallback store with limit 1. -/
theorem C3_fallback_search_ignores_query_witness :
    DocumentStore.search (V := Nat) ⟨8, 2, 100⟩
      ⟨false, [⟨0, "a", [1]⟩, ⟨1, "b", [2]⟩], []⟩ none [5] (some 1) =
      ([(⟨0, "a", [1]⟩ : StoredDoc Nat), ⟨1, "b", [2]⟩].take (1 : Int).toNat).map
        (fun d => d.text) :=
  (C3_fallback_search_ignores_query ⟨8, 2, 100⟩
    ⟨false, [⟨0, "a", [1]⟩, ⟨1, "b", [2]⟩], []⟩ none (some ["x"]) [5] [7] 1
    rfl (by decide)).1

/-- C9: configuration validation succeeds exactly when both the embedding
dimension and the search limit are positive; a non-positive value makes it
fail with an error (the fatal startup `ValueError`). -/
theorem C9_config_validation (cfg : Config) :
    (cfg.validate = .ok true ↔
      0 < cfg.EMBEDDING_DIMENSION ∧ 0 < cfg.SEARCH_LIMIT) ∧
    (cfg.EMBEDDING_DIMENSION ≤ 0 ∨ cfg.SEARCH_LIMIT ≤ 0 →
      ∃ msg, cfg.validate = .error msg) := by
  constructor
  · constructor
    · intro hok
      unfold Config.validate at hok
      split at hok
      · simp at hok
      · split at hok
        · simp at hok
        · constructor <;> omega
    · rintro ⟨h1, h2⟩
      unfold Config.validate
      rw [if_neg (by omega), if_neg (by omega)]
  · intro hbad
    unfold Config.validate
    split
    · exact ⟨_, rfl⟩
    · split
      · exact ⟨_, rfl⟩
      · exfalso
        rcases hbad with h | h <;> omega

/-- Closed witness for C9: the default configuration (128, 2, 100) validates;
a zero dimension fails with an error. -/
theorem C9_config_validation_witness :
    Config.validate ⟨128, 2, 100⟩ = .ok true ∧
    ∃ msg, Config.validate ⟨0, 2, 100⟩ = .error msg :=
  ⟨(C9_config_validation ⟨128, 2, 100⟩).1.mpr (by decide),
   (C9_config_validation ⟨0, 2, 100⟩).2 (Or.inl (by decide))⟩

/-- C4: backend errors stay local.  A failing insert makes
`DocumentStore.add_document` return `false` with the store unchanged (no
exception); a failing search makes `DocumentStore.search` return `[]`; and
`RagWorkflow.add_document` returns the store's boolean unchanged, so with the
same failing insert the workflow caller sees exactly `false`. -/
theorem C4_backend_errors_contained {V R : Type} (cfg : Config) (M : PyModel V R)
    (svc : EmbeddingService) (store : DocumentStore V) (query_embedding : List V)
    (limit : Option Int) (doc_id i : Int) (text : String) (embedding : List V)
    (rst : R) (hmode : store.using_qdrant = true) :
    store.add_document false doc_id text embedding = (false, store) ∧
    store.search cfg none query_embedding limit = [] ∧
    (RagWorkflow.add_document M svc store false text (some i) rst).1 = false ∧
    (∀ upsert_ok : Bool,
      (RagWorkflow.add_document M svc store upsert_ok text (some i) rst).1 =
        (store.add_document upsert_ok i text (svc.embed M text rst).1).1) := by
  refine ⟨?_, ?_, ?_, ?_⟩
  · unfold DocumentStore.add_document
    rw [hmode]
    rfl
  · unfold DocumentStore.search
    rw [hmode]
    rfl
  · unfold RagWorkflow.add_document DocumentStore.add_document
    rw [hmode]
    rfl
  · intro upsert_ok
    rfl

/-- Closed witness for C4 on a concrete primary-mode store. -/
theorem C4_backend_errors_contained_witness :
    DocumentStore.add_document (V := Nat) ⟨true, [], []⟩ false 0 "t" [1] =
      (false, ⟨true, [], []⟩) ∧
    DocumentStore.search (V := Nat) ⟨8, 2, 100⟩ ⟨true, [], []⟩ none [1] none = [] ∧
    (RagWorkflow.add_document natModel ⟨8⟩ ⟨true, [], []⟩ false "t" (some 0) 0).1 =
      false ∧
    (∀ upsert_ok : Bool,
      (RagWorkflow.add_document natModel ⟨8⟩ ⟨true, [], []⟩ upsert_ok "t"
          (some 0) 0).1 =
        (DocumentStore.add_document ⟨true, [], []⟩ upsert_ok 0 "t"
          ((EmbeddingService.mk 8).embed natModel "t" 0).1).1) :=
  C4_backend_errors_contained ⟨8, 2, 100⟩ natModel ⟨8⟩ ⟨true, [], []⟩ [1] none
    0 0 "t" [1] 0 rfl

/-- C7: running the workflow over an empty fallback store yields
`context = []` and the fixed fallback answer, for every question. -/
theorem C7_empty_store_pipeline {V R : Type} (cfg : Config) (M : PyModel V R)
    (svc : EmbeddingService) (store : DocumentStore V)
    (qdrant_result : Option (List String)) (question : String) (rst : R)
    (hmode : store.using_qdrant = false) (hempty : store.memory_store = []) :
    ((RagWorkflow.run cfg M svc store qdrant_result question rst).1).context =
      some [] ∧
    ((RagWorkflow.run cfg M svc store qdrant_result question rst).1).answer =
      some "Sorry, I don't know." := by
  unfold RagWorkflow.run RagWorkflow.retrieve_step RagWorkflow.answer_step
    DocumentStore.search
  rw [hmode, hempty]
  simp

/-- Closed witness for C7: an empty in-memory store answers the scenario
question with the fallback message. -/
theorem C7_empty_store_pipeline_witness :
    ((RagWorkflow.run ⟨8, 1, 10⟩ natModel ⟨8⟩ (DocumentStore.init Nat false)
        none "What is LangGraph?" 0).1).context = some [] ∧
    ((RagWorkflow.run ⟨8, 1, 10⟩ natModel ⟨8⟩ (DocumentStore.init Nat false)
        none "What is LangGraph?" 0).1).answer = some "Sorry, I don't know." :=
  C7_empty_store_pipeline ⟨8, 1, 10⟩ natModel ⟨8⟩ (DocumentStore.init Nat false)
    none "What is LangGraph?" 0 rfl rfl

/-- C2: if the first document of a fallback store has text strictly longer
than the configured preview length `L`, then (with a positive search limit)
running the pipeline yields an answer wrapping exactly the first `L`
characters of that text followed by the ellipsis marker. -/
theorem C2_preview_truncation {V R : Type} (cfg : Config) (M : PyModel V R)
    (svc : EmbeddingService) (store : DocumentStore V)
    (qdrant_result : Option (List String)) (question : String) (rst : R)
    (d : StoredDoc V) (ds : List (StoredDoc V))
    (hmode : store.using_qdrant = false) (hmem : store.memory_store = d :: ds)
    (hlim : 0 < cfg.SEARCH_LIMIT)
    (hlong : d.text.length > cfg.ANSWER_PREVIEW_LENGTH.toNat) :
    ((RagWorkflow.run cfg M svc store qdrant_result question rst).1).answer =
      some ("I found this: '" ++
        d.text.take cfg.ANSWER_PREVIEW_LENGTH.toNat ++ "..." ++ "'") := by
  have hne : cfg.SEARCH_LIMIT.toNat ≠ 0 := by
    rw [Ne, Int.toNat_eq_zero]
    omega
  obtain ⟨k, hk⟩ := Nat.exists_eq_succ_of_ne_zero hne
  unfold RagWorkflow.run RagWorkflow.retrieve_step RagWorkflow.answer_step
    DocumentStore.search pyOrInt
  rw [hmode, hmem]
  simp only [hlim.ne', if_false, hk, List.take_succ_cons, List.map_cons]
  simp [hlong, String.append_assoc]

/-- Closed witness for C2: preview length 3, one stored five-character
document. -/
theorem C2_preview_truncation_witness :
    ((RagWorkflow.run ⟨8, 2, 3⟩ natModel ⟨8⟩
        ⟨false, [⟨0, "abcde", [1]⟩], []⟩ none "q" 0).1).answer =
      some ("I found this: '" ++ ("abcde" : String).take (3 : Int).toNat ++
        "..." ++ "'") :=
  C2_preview_truncation ⟨8, 2, 3⟩ natModel ⟨8⟩
    ⟨false, [⟨0, "abcde", [1]⟩], []⟩ none "q" 0 ⟨0, "abcde", [1]⟩ []
    rfl rfl (by decide) (by decide)

/-- One insert never changes the backend-mode flag. -/
theorem add_document_using_qdrant {V : Type} (store : DocumentStore V)
    (upsert_ok : Bool) (doc_id : Int) (text : String) (embedding : List V) :
    ((store.add_document upsert_ok doc_id text embedding).2).using_qdrant =
      store.using_qdrant := by
  unfold DocumentStore.add_document
  split
  · split <;> rfl
  · rfl

/-- In primary mode one insert never touches the fallback list. -/
theorem add_document_memory_of_primary {V : Type} (store : DocumentStore V)
    (upsert_ok : Bool) (doc_id : Int) (text : String) (embedding : List V)
    (h : store.using_qdrant = true) :
    ((store.add_document upsert_ok doc_id text embedding).2).memory_store =
      store.memory_store := by
  unfold DocumentStore.add_document
  rw [h]
  simp only [if_true]
  split <;> rfl

/-- In fallback mode one insert never touches the Qdrant collection. -/
theorem add_document_points_of_fallback {V : Type} (store : DocumentStore V)
    (upsert_ok : Bool) (doc_id : Int) (text : String) (embedding : List V)
    (h : store.using_qdrant = false) :
    ((store.add_document upsert_ok doc_id text embedding).2).qdrant_points =
      store.qdrant_points := by
  unfold DocumentStore.add_document
  rw [h]
  simp

/-- One store call never changes the backend-mode flag. -/
theorem applyOp_using_qdrant {V : Type} (store : DocumentStore V) (op : StoreOp V) :
    (store.applyOp op).using_qdrant = store.using_qdrant := by
  cases op with
  | insert upsert_ok doc_id text embedding =>
      exact add_document_using_qdrant store upsert_ok doc_id text embedding
  | query qdrant_result query_embedding limit => rfl

/-- In primary mode one store call never touches the fallback list. -/
theorem applyOp_memory_of_primary {V : Type} (store : DocumentStore V)
    (op : StoreOp V) (h : store.using_qdrant = true) :
    (store.applyOp op).memory_store = store.memory_store := by
  cases op with
  | insert upsert_ok doc_id text embedding =>
      exact add_document_memory_of_primary store upsert_ok doc_id text embedding h
  | query qdrant_result query_embedding limit => rfl

/-- In fallback mode one store call never touches the Qdrant collection. -/
theorem applyOp_points_of_fallback {V : Type} (store : DocumentStore V)
    (op : StoreOp V) (h : store.using_qdrant = false) :
    (store.applyOp op).qdrant_points = store.qdrant_points := by
  cases op with
  | insert upsert_ok doc_id text embedding =>
      exact add_document_points_of_fallback store upsert_ok doc_id text embedding h
  | query qdrant_result query_embedding limit => rfl

/-- C8: the backend mode is fixed for the store's lifetime.  Initialization
sets `using_qdrant` to the probe's outcome; after an arbitrary sequence of
`add_document`/`search` calls the flag is unchanged, a primary-mode store's
fallback list is untouched, and a fallback-mode store's Qdrant collection is
untouched — data never migrates between backends. -/
theorem C8_backend_mode_fixed {V : Type} (connect_ok : Bool)
    (store : DocumentStore V) (ops : List (StoreOp V)) :
    (DocumentStore.init V connect_ok).using_qdrant = connect_ok ∧
    (store.applyOps ops).using_qdrant = store.using_qdrant ∧
    (store.using_qdrant = true →
      (store.applyOps ops).memory_store = store.memory_store) ∧
    (store.using_qdrant = false →
      (store.applyOps ops).qdrant_points = store.qdrant_points) := by
  refine ⟨rfl, ?_⟩
  induction ops generalizing store with
  | nil => exact ⟨rfl, fun _ => rfl, fun _ => rfl⟩
  | cons op ops ih =>
      obtain ⟨ihflag, ihmem, ihpts⟩ := ih (store.applyOp op)
      have hflag := applyOp_using_qdrant store op
      refine ⟨ihflag.trans hflag, ?_, ?_⟩
      · intro h
        have h' : (store.applyOp op).using_qdrant = true := hflag.trans h
        exact (ihmem h').trans (applyOp_memory_of_primary store op h)
      · intro h
        have h' : (store.applyOp op).using_qdrant = false := hflag.trans h
        exact (ihpts h').trans (applyOp_points_of_fallback store op h)

/-- Closed witness for C8 on a concrete fallback store and call sequence. -/
theorem C8_backend_mode_fixed_witness :
    (DocumentStore.init Nat true).using_qdrant = true ∧
    ((DocumentStore.init Nat false).applyOps
        [.insert true 0 "a" [1], .query none [2] none]).using_qdrant =
      (DocumentStore.init Nat false).using_qdrant ∧
    ((DocumentStore.init Nat false).applyOps
        [.insert true 0 "a" [1], .query none [2] none]).qdrant_points =
      (DocumentStore.init Nat false).qdrant_points := by
  obtain ⟨h1, h2, _, h4⟩ := C8_backend_mode_fixed true (DocumentStore.init Nat false)
    [.insert true 0 "a" [1], .query none [2] none]
  exact ⟨h1, h2, h4 rfl⟩

/-- Invariant behind C10: a primary-mode store with an empty fallback list and
at most one Qdrant point, that point having id 0, keeps exactly that shape
under a sequence of successful API adds, every response being
`{id: 0, status: "added"}`. -/
theorem addAll_primary_invariant {V R : Type} (M : PyModel V R)
    (svc : EmbeddingService) (texts : List String) :
    ∀ (store : DocumentStore V) (rst : R),
      store.using_qdrant = true → store.memory_store = [] →
      (store.qdrant_points = [] ∨
        ∃ p : StoredDoc V, store.qdrant_points = [p] ∧ p.id = 0) →
      (∀ r ∈ (RagAPI.addAll M svc store rst texts).1,
        r = .ok ⟨0, "added"⟩) ∧
      (RagAPI.addAll M svc store rst texts).2.1.using_qdrant = true ∧
      (RagAPI.addAll M svc store rst texts).2.1.memory_store = [] ∧
      ((RagAPI.addAll M svc store rst texts).2.1.qdrant_points = [] ∨
        ∃ p : StoredDoc V,
          (RagAPI.addAll M svc store rst texts).2.1.qdrant_points = [p] ∧
          p.id = 0) := by
  induction texts with
  | nil =>
      intro store rst hmode hmem hpts
      exact ⟨fun r hr => absurd hr (List.not_mem_nil r), hmode, hmem, hpts⟩
  | cons t ts ih =>
      intro store rst hmode hmem hpts
      have hcount : store.get_stats.in_memory_count = 0 := by
        unfold DocumentStore.get_stats
        rw [hmem]
        rfl
      have hstep :
          RagAPI.add_document M svc store true t rst =
            (.ok ⟨0, "added"⟩,
             { store with
                 qdrant_points := qdrantUpsert store.qdrant_points
                   ⟨0, t, (svc.embed M t rst).1⟩ },
             (svc.embed M t rst).2) := by
        unfold RagAPI.add_document RagWorkflow.add_document
          DocumentStore.add_document
        rw [hmode, hcount]
        rfl
      have hpts' :
          qdrantUpsert store.qdrant_points ⟨0, t, (svc.embed M t rst).1⟩ = [] ∨
          ∃ p : StoredDoc V,
            qdrantUpsert store.qdrant_points ⟨0, t, (svc.embed M t rst).1⟩ = [p] ∧
            p.id = 0 := by
        right
        rcases hpts with hnil | ⟨p, hp, hpid⟩
        · exact ⟨⟨0, t, (svc.embed M t rst).1⟩, by rw [hnil]; rfl, rfl⟩
        · refine ⟨⟨0, t, (svc.embed M t rst).1⟩, ?_, rfl⟩
          unfold qdrantUpsert
          rw [hp]
          simp [hpid]
      obtain ⟨ihresp, ihmode, ihmem, ihq⟩ :=
        ih { store with
               qdrant_points := qdrantUpsert store.qdrant_points
                 ⟨0, t, (svc.embed M t rst).1⟩ }
           (svc.embed M t rst).2 hmode hmem hpts'
      unfold RagAPI.addAll
      rw [hstep]
      refine ⟨?_, ihmode, ihmem, ihq⟩
      intro r hr
      simp only [List.mem_cons] at hr
      rcases hr with hr | hr
      · exact hr
      · exact ihresp r hr

/-- C10: in primary mode `add_document` never modifies the in-memory fallback
list, so after any sequence of successful API adds starting from a fresh
primary-mode store the in-memory count reported by `get_stats` is still 0,
every response carries id 0 and status "added", and the Qdrant collection
holds at most one point (each upsert replaced the previous one). -/
theorem C10_primary_mode_frame {V R : Type} (M : PyModel V R)
    (svc : EmbeddingService) (store : DocumentStore V) (rst : R)
    (texts : List String) (hmode : store.using_qdrant = true)
    (hmem : store.memory_store = []) (hq : store.qdrant_points = []) :
    (∀ r ∈ (RagAPI.addAll M svc store rst texts).1, r = .ok ⟨0, "added"⟩) ∧
    (RagAPI.addAll M svc store rst texts).2.1.get_stats.in_memory_count = 0 ∧
    (RagAPI.addAll M svc store rst texts).2.1.qdrant_points.length ≤ 1 := by
  obtain ⟨hresp, _, hmem', hq'⟩ :=
    addAll_primary_invariant M svc texts store rst hmode hmem (Or.inl hq)
  refine ⟨hresp, ?_, ?_⟩
  · unfold DocumentStore.get_stats
    rw [hmem']
    rfl
  · rcases hq' with hnil | ⟨p, hp, _⟩
    · rw [hnil]; simp
    · rw [hp]; simp

/-- Closed witness for C10: three successive successful adds in primary mode
all get id 0 and leave a single Qdrant point and an empty fallback list. -/
theorem C10_primary_mode_frame_witness :
    (∀ r ∈ (RagAPI.addAll natModel ⟨8⟩ (DocumentStore.init Nat true) 0
        ["a", "b", "c"]).1, r = .ok ⟨0, "added"⟩) ∧
    (RagAPI.addAll natModel ⟨8⟩ (DocumentStore.init Nat true) 0
        ["a", "b", "c"]).2.1.get_stats.in_memory_count = 0 ∧
    (RagAPI.addAll natModel ⟨8⟩ (DocumentStore.init Nat true) 0
        ["a", "b", "c"]).2.1.qdrant_points.length ≤ 1 :=
  C10_primary_mode_frame natModel ⟨8⟩ (DocumentStore.init Nat true) 0
    ["a", "b", "c"] rfl rfl rfl

set_option maxRecDepth 4096 in
/-- C1 counterexample: in the spec's end-to-end scenario (dimension 8,
limit 1, preview 10, empty fallback store) the add step does return
`{id: 0, status: "added"}` and the question does return the full document as
its only context entry, but the answer is
`"I found this: 'LangGraph '..."` wrapped — the first **10** characters of the
document end with a space — and is **not** the spec's
`"I found this: 'LangGraph i...'"` (which would be the first 11). -/
theorem C1_end_to_end_counterexample :
    (RagAPI.add_document natModel ⟨8⟩ (DocumentStore.init Nat false) true
        langGraphText 0).1 = .ok ⟨0, "added"⟩ ∧
    (RagAPI.ask_question ⟨8, 1, 10⟩ natModel ⟨8⟩
        (RagAPI.add_document natModel ⟨8⟩ (DocumentStore.init Nat false) true
          langGraphText 0).2.1
        none "What is LangGraph?"
        (RagAPI.add_document natModel ⟨8⟩ (DocumentStore.init Nat false) true
          langGraphText 0).2.2).1.context_used = [langGraphText] ∧
    (RagAPI.ask_question ⟨8, 1, 10⟩ natModel ⟨8⟩
        (RagAPI.add_document natModel ⟨8⟩ (DocumentStore.init Nat false) true
          langGraphText 0).2.1
        none "What is LangGraph?"
        (RagAPI.add_document natModel ⟨8⟩ (DocumentStore.init Nat false) true
          langGraphText 0).2.2).1.answer ≠ "I found this: 'LangGraph i...'" := by
  refine ⟨rfl, rfl, ?_⟩
  decide

/-- Helper: one successful API add on a fallback-mode store appends the
embedded document and returns the in-memory count as id. -/
theorem api_add_fallback {V R : Type} (M : PyModel V R) (svc : EmbeddingService)
    (store : DocumentStore V) (text : String) (rst : R)
    (hmode : store.using_qdrant = false) :
    RagAPI.add_document M svc store true text rst =
      (.ok ⟨(store.memory_store.length : Int), "added"⟩,
       { store with memory_store := store.memory_store ++
           [⟨(store.memory_store.length : Int), text, (svc.embed M text rst).1⟩] },
       (svc.embed M text rst).2) := by
  unfold RagAPI.add_document RagWorkflow.add_document DocumentStore.add_document
    DocumentStore.get_stats
  rw [hmode]
  simp

set_option maxRecDepth 4096 in
/-- C1 amended: same scenario, for every runtime model and initial generator
state: the add step returns `{id: 0, status: "added"}`, the question returns
the full document as its only context entry, and the answer is
`"I found this: 'LangGraph ...'"` (the first 10 characters, `"LangGraph "`,
followed by the ellipsis marker). -/
theorem C1_end_to_end_amended {V R : Type} (M : PyModel V R) (rst : R) :
    (RagAPI.add_document M ⟨8⟩ (DocumentStore.init V false) true
        langGraphText rst).1 = .ok ⟨0, "added"⟩ ∧
    (RagAPI.ask_question ⟨8, 1, 10⟩ M ⟨8⟩
        (RagAPI.add_document M ⟨8⟩ (DocumentStore.init V false) true
          langGraphText rst).2.1
        none "What is LangGraph?"
        (RagAPI.add_document M ⟨8⟩ (DocumentStore.init V false) true
          langGraphText rst).2.2).1.context_used = [langGraphText] ∧
    (RagAPI.ask_question ⟨8, 1, 10⟩ M ⟨8⟩
        (RagAPI.add_document M ⟨8⟩ (DocumentStore.init V false) true
          langGraphText rst).2.1
        none "What is LangGraph?"
        (RagAPI.add_document M ⟨8⟩ (DocumentStore.init V false) true
          langGraphText rst).2.2).1.answer = "I found this: 'LangGraph ...'" := by
  rw [api_add_fallback M ⟨8⟩ (DocumentStore.init V false) langGraphText rst rfl]
  refine ⟨rfl, ?_, ?_⟩
  · unfold RagAPI.ask_question RagWorkflow.run RagWorkflow.retrieve_step
      RagWorkflow.answer_step DocumentStore.search DocumentStore.init pyOrInt
    simp
  · unfold RagAPI.ask_question RagWorkflow.run RagWorkflow.retrieve_step
      RagWorkflow.answer_step DocumentStore.search DocumentStore.init pyOrInt
    simp
    decide

end RagDemo
